import Mathlib

/-!
Verification of the donation service (server.js): a shallow embedding of the
Veopag gateway client, the in-memory donation store, the lifecycle routes
(POST /donations, GET /donations/:id, POST /webhooks/veopag,
POST /donations/:id/sync) and the UTMify conversion notifier.

JavaScript values flowing through the service are modelled by the inductive
type JVal (null and undefined are merged into jnull; numbers are modelled as
rationals; arrays do not occur on any path the claims touch and are omitted).
Network calls are modelled by oracles carried in an Env record: each fetch
result is given as a FetchResp (ok flag, HTTP status, and the outcome of
JSON.parse on the body, with parse failure as none).
-/

inductive JVal where
  | jnull : JVal
  | jbool : Bool → JVal
  | jnum : ℚ → JVal
  | jstr : String → JVal
  | jobj : List (String × JVal) → JVal

/-- Field lookup on an object field list: first binding wins, missing is
undefined (merged into jnull). -/
def getField : List (String × JVal) → String → JVal
  | [], _ => JVal.jnull
  | e :: es, k => if e.1 == k then e.2 else getField es k

/-- Optional chaining `v?.k`: field access on an object, undefined (jnull)
on every non-object. -/
def JVal.get (v : JVal) (k : String) : JVal :=
  match v with
  | JVal.jobj fs => getField fs k
  | _ => JVal.jnull

/-- JavaScript truthiness: null/undefined, false, 0 and "" are falsy. -/
def truthy : JVal → Bool
  | JVal.jnull => false
  | JVal.jbool b => b
  | JVal.jnum q => !(q == 0)
  | JVal.jstr s => !(s == "")
  | JVal.jobj _ => true

/-- JavaScript `a || b`. -/
def jor (a b : JVal) : JVal := if truthy a then a else b

/-- JavaScript `a ?? b` (nullish coalescing: only null/undefined fall through). -/
def jnn (a b : JVal) : JVal :=
  match a with
  | JVal.jnull => b
  | v => v

/-- JavaScript strict equality `===` restricted to the values the service
compares: structural on primitives; false on objects (two objects are `===`
only when they are the same reference, and the stored transaction id and a
freshly parsed webhook body are never the same reference). -/
def jsEq : JVal → JVal → Bool
  | JVal.jnull, JVal.jnull => true
  | JVal.jbool a, JVal.jbool b => a == b
  | JVal.jnum a, JVal.jnum b => a == b
  | JVal.jstr a, JVal.jstr b => a == b
  | _, _ => false

/-- JavaScript string coercion as used in template literals. -/
def jvalToStr : JVal → String
  | JVal.jnull => "null"
  | JVal.jbool b => if b then "true" else "false"
  | JVal.jnum q => if q.den = 1 then toString q.num else toString q
  | JVal.jstr s => s
  | JVal.jobj _ => "[object Object]"

def escChar (c : Char) : String :=
  if c = '"' then "\\\"" else if c = '\\' then "\\\\" else String.singleton c

def escStr (s : String) : String := String.join (s.toList.map escChar)

mutual

/-- JSON.stringify on the modelled values (integer-valued numbers print as
integers; other rationals print in Lean form, which no claim exercises). -/
def jstringify : JVal → String
  | JVal.jnull => "null"
  | JVal.jbool b => if b then "true" else "false"
  | JVal.jnum q => if q.den = 1 then toString q.num else toString q
  | JVal.jstr s => "\"" ++ escStr s ++ "\""
  | JVal.jobj fs => "\x7b" ++ jstringifyFields fs ++ "\x7d"
termination_by structural v => v

def jstringifyFields : List (String × JVal) → String
  | [] => ""
  | [e] => "\"" ++ escStr e.1 ++ "\":" ++ jstringify e.2
  | e :: e2 :: es =>
      "\"" ++ escStr e.1 ++ "\":" ++ jstringify e.2 ++ "," ++ jstringifyFields (e2 :: es)
termination_by structural l => l

end

def isHexDigit (c : Char) : Bool :=
  c.isDigit || ('A' ≤ c && c ≤ 'F') || ('a' ≤ c && c ≤ 'f')

/-- Does the character list begin with the EMV trailer `6304` followed by
four hex digits (the tail of the regex /000201[\s\S]*?6304[0-9A-Fa-f]{4}/)? -/
def matchesTailAt : List Char → Bool
  | '6' :: '3' :: '0' :: '4' :: a :: b :: c :: d :: _ =>
      isHexDigit a && isHexDigit b && isHexDigit c && isHexDigit d
  | _ => false

/-- Lazy search for the nearest trailer occurrence: returns the characters
consumed up to and including the first `6304`+4-hex-digit token, mirroring
the non-greedy `[\s\S]*?` of the source regex. -/
def findTail : List Char → Option (List Char)
  | [] => none
  | c :: cs =>
      if matchesTailAt (c :: cs) then some (List.take 8 (c :: cs))
      else (findTail cs).map (fun t => c :: t)

def pixMarker : List Char := "000201".toList

/-- Leftmost match of /000201[\s\S]*?6304[0-9A-Fa-f]{4}/: scan start
positions left to right; at a position carrying the literal `000201`, take
the lazily shortest completion, otherwise move on. -/
def pixScan : List Char → Option (List Char)
  | [] => none
  | c :: cs =>
      if List.take 6 (c :: cs) = pixMarker then
        match findTail (List.drop 6 (c :: cs)) with
        | some t => some (pixMarker ++ t)
        | none => pixScan cs
      else pixScan cs

def pixMatch (s : String) : Option String :=
  (pixScan s.toList).map (fun l => String.mk l)

/-- JavaScript String.prototype.startsWith, written over the character
list so that it evaluates inside the kernel. -/
def strStartsWith (s pre : String) : Bool :=
  List.isPrefixOf pre.toList s.toList

structure ParsedDeposit where
  transactionId : JVal
  qrCodeUrl : JVal
  copyPaste : JVal
  expiresAt : JVal

/-- Embedding of parseVeopagDepositResponse (server.js lines 108-145): the
flexible normalizer over the provider response shapes, with the raw-JSON EMV
regex fallback and the URL-to-code reclassification. -/
def parseVeopagDepositResponse (data : JVal) : ParsedDeposit :=
  let qrBlock :=
    jor (data.get "qrCodeResponse")
      (jor (data.get "qr_code_response")
        (jor (data.get "qr")
          (jor (data.get "data") data)))
  let transactionId :=
    jor (qrBlock.get "transactionId")
      (jor (qrBlock.get "transaction_id")
        (jor (qrBlock.get "id")
          (jor (data.get "transactionId")
            (jor (data.get "id") JVal.jnull))))
  let qrCodeUrl0 :=
    jor (qrBlock.get "qrCodeUrl")
      (jor (qrBlock.get "qrcodeUrl")
        (jor (qrBlock.get "qr_code_url")
          (jor (qrBlock.get "qrCode")
            (jor (qrBlock.get "qrcode")
              (jor (qrBlock.get "qr_url")
                (jor (qrBlock.get "imageUrl") JVal.jnull))))))
  let copyPaste0 :=
    jor (qrBlock.get "pixCopyPaste")
      (jor (qrBlock.get "copyPaste")
        (jor (qrBlock.get "emv")
          (jor (qrBlock.get "payload")
            (jor (qrBlock.get "pixCode")
              (jor (qrBlock.get "brCode")
                (match qrBlock.get "code" with
                 | JVal.jstr s => JVal.jstr s
                 | _ => JVal.jnull))))))
  let copyPaste1 :=
    if truthy copyPaste0 then copyPaste0
    else
      match pixMatch (jstringify data) with
      | some m => JVal.jstr m
      | none => copyPaste0
  let reclassify :=
    !(truthy copyPaste1) &&
      (match qrCodeUrl0 with
       | JVal.jstr u => strStartsWith u "000201"
       | _ => false)
  let copyPaste2 := if reclassify then qrCodeUrl0 else copyPaste1
  let qrCodeUrl2 := if reclassify then JVal.jnull else qrCodeUrl0
  let expiresAt := jnn (qrBlock.get "expiresAt") (jnn (qrBlock.get "expires_at") JVal.jnull)
  ⟨transactionId, qrCodeUrl2, copyPaste2, expiresAt⟩

example :
    parseVeopagDepositResponse
      (JVal.jobj [("transactionId", JVal.jstr "T"), ("qrCodeUrl", JVal.jstr "u"),
                  ("pixCopyPaste", JVal.jstr "c")]) =
    ⟨JVal.jstr "T", JVal.jstr "u", JVal.jstr "c", JVal.jnull⟩ := rfl

example :
    pixMatch "ab000201xy6304AbF9z" = some "000201xy6304AbF9" := rfl

/-!
Gateway client: the auth, deposit-creation and status fetches are modelled as
oracles. FetchResp carries the ok flag and HTTP status of the response and
the outcome of JSON.parse on its body (none when the body is not JSON). The
status endpoint oracle is a function of the requested URL, so that theorems
can express which URLs the code does and does not consult.
-/

structure FetchResp where
  ok : Bool
  status : Nat
  parsed : Option JVal

structure Env where
  auth : FetchResp
  deposit : FetchResp
  statusResp : String → FetchResp
  utmifyOk : Bool

inductive ApiErr where
  | authHttp : Nat → ApiErr
  | authNonJson : ApiErr
  | tokenMissing : ApiErr
  | depositHttp : Nat → ApiErr
  | depositNonJson : ApiErr
  | noEmv : ApiErr
  | statusHttp : Nat → ApiErr
  | statusNonJson : ApiErr
  | utmify : Nat → ApiErr
deriving DecidableEq

def VEOPAG_STATUS (id : String) : String :=
  "https://api.veopag.com/api/payments/status/" ++ id

/-- Embedding of veopagToken (server.js lines 88-105). -/
def veopagToken (env : Env) : Except ApiErr JVal :=
  let r := env.auth
  if r.ok then
    match r.parsed with
    | none => Except.error ApiErr.authNonJson
    | some data =>
        if truthy (data.get "token") then Except.ok (data.get "token")
        else Except.error ApiErr.tokenMissing
  else Except.error (ApiErr.authHttp r.status)

structure Charge where
  transactionId : JVal
  qrCodeUrl : JVal
  copyPaste : JVal
  expiresAt : JVal

/-- Embedding of createDeposit (server.js lines 147-183): authenticate, post
the deposit, parse, normalize, and reject responses that yield no transaction
id or no display artifact. -/
def createDeposit (env : Env) : Except ApiErr Charge :=
  match veopagToken env with
  | Except.error e => Except.error e
  | Except.ok _ =>
    let r := env.deposit
    if r.ok then
      match r.parsed with
      | none => Except.error ApiErr.depositNonJson
      | some data =>
        let p := parseVeopagDepositResponse data
        if !(truthy p.transactionId) || (!(truthy p.qrCodeUrl) && !(truthy p.copyPaste)) then
          Except.error ApiErr.noEmv
        else Except.ok ⟨p.transactionId, p.qrCodeUrl, p.copyPaste, p.expiresAt⟩
    else Except.error (ApiErr.depositHttp r.status)

/-- Embedding of getDepositStatus (server.js lines 185-198): one GET against
the single status URL; any non-ok response throws; otherwise the parsed
the status field of the body is returned. -/
def getDepositStatus (env : Env) (transactionId : String) : Except ApiErr JVal :=
  match veopagToken env with
  | Except.error e => Except.error e
  | Except.ok _ =>
    let r := env.statusResp (VEOPAG_STATUS transactionId)
    if r.ok then
      match r.parsed with
      | none => Except.error ApiErr.statusNonJson
      | some data => Except.ok (data.get "status")
    else Except.error (ApiErr.statusHttp r.status)

/-!
Donation store: the in-memory Map keyed by donation id, modelled as an
insertion-ordered association list; dbSet mirrors Map.set (update in place
when the key is present, append otherwise), and findByTx mirrors the webhook
first-match scan of the webhook handler over db.entries().
-/

structure Record where
  amount : ℚ
  status : String
  veopagTxId : JVal
  qrCodeUrl : JVal
  copyPaste : JVal
  utm : JVal
  createdAtUtc : String

abbrev Store : Type := List (String × Record)

def dbGet : Store → String → Option Record
  | [], _ => none
  | e :: es, k => if e.1 = k then some e.2 else dbGet es k

def dbHas (s : Store) (k : String) : Bool :=
  s.any (fun e => e.1 == k)

def dbSet (s : Store) (k : String) (v : Record) : Store :=
  if dbHas s k then s.map (fun e => if e.1 = k then (k, v) else e)
  else s ++ [(k, v)]

/-- The lookup loop of the webhook handler (server.js lines 415-422): first record
whose veopagTxId is strictly equal to the transaction_id of the event. -/
def findByTx : Store → JVal → Option (String × Record)
  | [], _ => none
  | e :: es, tx => if jsEq e.2.veopagTxId tx then some e else findByTx es tx

/-!
Conversion notifier and HTTP layer. A Notif records one attempted
sendUtmifyOrder call with the payload fields the claims talk about; the
oracle decides whether the attribution service accepts it.
-/

structure Notif where
  orderId : String
  status : String
  createdAtUtc : String
  approvedDateUtc : Option String
  amountInCents : ℤ
  transactionId : JVal

/-- Math.round in JavaScript: halves round toward positive infinity. -/
def jsRound (q : ℚ) : ℤ := Int.floor (q + 1 / 2)

/-- Embedding of sendUtmifyOrder (server.js lines 203-276): builds the order
payload and posts it; a non-ok response throws. -/
def sendUtmifyOrder (env : Env) (n : Notif) : Except ApiErr Unit :=
  if env.utmifyOk then Except.ok () else Except.error (ApiErr.utmify 500)

structure HResp where
  status : Nat
  body : JVal

structure RunResult where
  store : Store
  resp : HResp
  notifs : List Notif

/-- The try/catch wrapper the routes place around every notifier call: the
catch block only logs, so the outcome is inspected but both continuations
are the code that follows the try/catch. -/
def swallow (e : Except ApiErr Unit) (r : RunResult) : RunResult :=
  match e with
  | Except.ok _ => r
  | Except.error _ => r

theorem swallow_eq (e : Except ApiErr Unit) (r : RunResult) : swallow e r = r := by
  cases e <;> rfl

def errBody (msg : String) : JVal := JVal.jobj [("error", JVal.jstr msg)]

def ApiErr.msg : ApiErr → String
  | ApiErr.authHttp n => "Veopag auth " ++ toString n
  | ApiErr.authNonJson => "Auth nao-JSON"
  | ApiErr.tokenMissing => "Veopag token ausente"
  | ApiErr.depositHttp n => "Veopag deposit " ++ toString n
  | ApiErr.depositNonJson => "Veopag retornou texto nao-JSON"
  | ApiErr.noEmv => "Resposta Veopag sem EMV/QR"
  | ApiErr.statusHttp n => "Veopag status " ++ toString n
  | ApiErr.statusNonJson => "Status nao-JSON"
  | ApiErr.utmify n => "UTMify " ++ toString n

structure DonReq where
  amountNum : Option ℚ
  utm : JVal

/-- Embedding of POST /donations (server.js lines 336-393). amountNum is the
result of Number(req.body?.amount), with none standing for a non-finite
result; donationId stands for the freshly generated crypto.randomUUID();
nowUtc for toUtcString(). The waiting_payment notification is attempted
inside its own try/catch, so both outcomes continue identically. -/
def postDonations (env : Env) (req : DonReq) (donationId nowUtc clientIp : String)
    (s : Store) : RunResult :=
  match req.amountNum with
  | none => ⟨s, ⟨400, errBody "amount invalido"⟩, []⟩
  | some amount =>
    if amount ≤ 0 then ⟨s, ⟨400, errBody "amount invalido"⟩, []⟩
    else
      match createDeposit env with
      | Except.error e => ⟨s, ⟨502, errBody e.msg⟩, []⟩
      | Except.ok qr =>
        let rcd : Record :=
          ⟨amount, "pending", qr.transactionId, qr.qrCodeUrl, qr.copyPaste, req.utm, nowUtc⟩
        let s1 := dbSet s donationId rcd
        let n : Notif :=
          ⟨"donation_" ++ donationId, "waiting_payment", nowUtc, none,
            jsRound (amount * 100), qr.transactionId⟩
        let resp : HResp :=
          ⟨201, JVal.jobj [("donationId", JVal.jstr donationId),
                           ("transactionId", qr.transactionId),
                           ("qrCodeUrl", qr.qrCodeUrl),
                           ("copyPaste", qr.copyPaste),
                           ("expiresAt", qr.expiresAt)]⟩
        swallow (sendUtmifyOrder env n) ⟨s1, resp, [n]⟩

/-- Embedding of GET /donations/:id (server.js lines 396-406); reads only. -/
def getDonation (s : Store) (id : String) : HResp :=
  match dbGet s id with
  | none => ⟨404, errBody "not found"⟩
  | some row =>
      ⟨200, JVal.jobj [("donationId", JVal.jstr id),
                       ("status", JVal.jstr row.status),
                       ("amount", JVal.jnum row.amount),
                       ("qrCodeUrl", row.qrCodeUrl),
                       ("copyPaste", row.copyPaste)]⟩

/-- Embedding of POST /webhooks/veopag (server.js lines 409-456): look up by
transaction_id; unknown id answers 404 and touches nothing; a COMPLETED
event on a not-yet-paid record flips it to paid and attempts the paid
notification inside try/catch; every other case only acknowledges. -/
def webhookVeopag (env : Env) (ev : JVal) (nowUtc clientIp : String)
    (s : Store) : RunResult :=
  match findByTx s (ev.get "transaction_id") with
  | none => ⟨s, ⟨404, JVal.jobj [("error", JVal.jstr "donation not found"), ("received", ev)]⟩, []⟩
  | some (donationId, row) =>
    if jsEq (ev.get "status") (JVal.jstr "COMPLETED") && !(row.status == "paid") then
      let row2 : Record := { row with status := "paid" }
      let s1 := dbSet s donationId row2
      let n : Notif :=
        ⟨"donation_" ++ donationId, "paid", row.createdAtUtc, some nowUtc,
          jsRound (row.amount * 100), row.veopagTxId⟩
      swallow (sendUtmifyOrder env n) ⟨s1, ⟨200, JVal.jobj [("received", JVal.jbool true)]⟩, [n]⟩
    else ⟨s, ⟨200, JVal.jobj [("received", JVal.jbool true)]⟩, []⟩

/-- Embedding of POST /donations/:id/sync (server.js lines 459-492): resolve
the record, query the provider status, and apply the same guarded completion
transition as the webhook; a status-query failure surfaces as 502. -/
def syncDonation (env : Env) (donationId nowUtc clientIp : String)
    (s : Store) : RunResult :=
  match dbGet s donationId with
  | none => ⟨s, ⟨404, errBody "not found"⟩, []⟩
  | some row =>
    if !(truthy row.veopagTxId) then ⟨s, ⟨404, errBody "not found"⟩, []⟩
    else
      match getDepositStatus env (jvalToStr row.veopagTxId) with
      | Except.error e => ⟨s, ⟨502, errBody e.msg⟩, []⟩
      | Except.ok st =>
        if jsEq st (JVal.jstr "COMPLETED") && !(row.status == "paid") then
          let row2 : Record := { row with status := "paid" }
          let s1 := dbSet s donationId row2
          let n : Notif :=
            ⟨"donation_" ++ donationId, "paid", row.createdAtUtc, some nowUtc,
              jsRound (row.amount * 100), row.veopagTxId⟩
          let resp : HResp :=
            ⟨200, JVal.jobj [("donationId", JVal.jstr donationId), ("status", JVal.jstr "paid")]⟩
          swallow (sendUtmifyOrder env n) ⟨s1, resp, [n]⟩
        else
          ⟨s, ⟨200, JVal.jobj [("donationId", JVal.jstr donationId),
                               ("status", JVal.jstr row.status)]⟩, []⟩

/-!
Operations for the lifecycle-wide invariants: one constructor per route that
can touch the store, plus the read-only status query.
-/

inductive Op where
  | create : Env → DonReq → String → String → String → Op
  | webhook : Env → JVal → String → String → Op
  | sync : Env → String → String → String → Op
  | read : String → Op

def applyOp (op : Op) (s : Store) : Store :=
  match op with
  | Op.create env req d now ip => (postDonations env req d now ip s).store
  | Op.webhook env ev now ip => (webhookVeopag env ev now ip s).store
  | Op.sync env d now ip => (syncDonation env d now ip s).store
  | Op.read _ => s

/-- Freshness of crypto.randomUUID(): the generated donation id of a create
operation does not collide with a stored key. -/
def opFresh (op : Op) (s : Store) : Prop :=
  match op with
  | Op.create _ _ d _ _ => dbHas s d = false
  | _ => True

/-- Spec data-model invariant: every stored status is pending or paid. -/
def statusOk (s : Store) : Prop :=
  ∀ e ∈ s, e.2.status = "pending" ∨ e.2.status = "paid"

/-- Spec uniqueness invariant: no two stored records carry the same provider
transaction id. -/
def txUnique (s : Store) : Prop :=
  List.Pairwise (fun a b => a.2.veopagTxId ≠ b.2.veopagTxId) s

/-! Store lemmas. -/

theorem dbGet_none_iff (s : Store) (k : String) :
    dbGet s k = none ↔ dbHas s k = false := by
  induction s with
  | nil => simp [dbGet, dbHas]
  | cons e es ih =>
    by_cases h : e.1 = k
    · simp [dbGet, dbHas, h]
    · simp [dbGet, dbHas, h, List.any_cons] at *
      exact ih

theorem dbGet_append_some (s t : Store) (k : String) (r : Record)
    (h : dbGet s k = some r) : dbGet (s ++ t) k = some r := by
  induction s with
  | nil => simp [dbGet] at h
  | cons e es ih =>
    by_cases he : e.1 = k
    · simp [dbGet, he] at h ⊢; exact h
    · simp [dbGet, he] at h ⊢; exact ih h

theorem dbGet_append_none (s t : Store) (k : String)
    (h : dbGet s k = none) : dbGet (s ++ t) k = dbGet t k := by
  induction s with
  | nil => simp
  | cons e es ih =>
    by_cases he : e.1 = k
    · simp [dbGet, he] at h
    · simp [dbGet, he] at h ⊢; exact ih h

theorem dbGet_setAll (s : Store) (k : String) (v : Record) :
    dbGet (s.map (fun e => if e.1 = k then (k, v) else e)) k =
      (dbGet s k).map (fun _ => v) := by
  induction s with
  | nil => simp [dbGet]
  | cons e es ih =>
    by_cases he : e.1 = k
    · simp [dbGet, he]
    · simp [dbGet, he, ih]

theorem dbGet_setAll_ne (s : Store) (k k2 : String) (v : Record) (hne : k2 ≠ k) :
    dbGet (s.map (fun e => if e.1 = k then (k, v) else e)) k2 = dbGet s k2 := by
  induction s with
  | nil => simp
  | cons e es ih =>
    by_cases he : e.1 = k
    · have hk2 : ¬ k = k2 := fun h => hne h.symm
      have he2 : ¬ e.1 = k2 := fun h => hk2 (he ▸ h)
      simp [dbGet, he, hk2, he2, ih]
    · by_cases he2 : e.1 = k2
      · simp [dbGet, he, he2, hne]
      · simp [dbGet, he, he2, ih]

theorem dbGet_dbSet_self (s : Store) (k : String) (v : Record) :
    dbGet (dbSet s k v) k = some v := by
  unfold dbSet
  by_cases h : dbHas s k
  · rw [if_pos h, dbGet_setAll]
    cases hg : dbGet s k with
    | none => rw [dbGet_none_iff] at hg; rw [hg] at h; cases h
    | some r => rfl
  · have hf : dbHas s k = false := by
      cases hb : dbHas s k
      · rfl
      · exact absurd hb h
    rw [if_neg h, dbGet_append_none s _ k ((dbGet_none_iff s k).2 hf)]
    simp [dbGet]

theorem dbGet_dbSet_ne (s : Store) (k k2 : String) (v : Record) (hne : k2 ≠ k) :
    dbGet (dbSet s k v) k2 = dbGet s k2 := by
  unfold dbSet
  by_cases h : dbHas s k
  · rw [if_pos h, dbGet_setAll_ne s k k2 v hne]
  · rw [if_neg h]
    cases hg : dbGet s k2 with
    | none =>
      rw [dbGet_append_none s _ k2 hg]
      have hk2 : ¬ k = k2 := fun hh => hne hh.symm
      simp [dbGet, hk2]
    | some r => exact dbGet_append_some s _ k2 r hg

theorem findByTx_matches (s : Store) (tx : JVal) (d : String) (r : Record)
    (h : findByTx s tx = some (d, r)) : jsEq r.veopagTxId tx = true := by
  induction s with
  | nil => simp [findByTx] at h
  | cons e es ih =>
    by_cases he : jsEq e.2.veopagTxId tx = true
    · simp [findByTx, he] at h
      subst h
      simpa using he
    · simp [findByTx, he] at h
      exact ih h

theorem findByTx_has (s : Store) (tx : JVal) (d : String) (r : Record)
    (h : findByTx s tx = some (d, r)) : dbHas s d = true := by
  induction s with
  | nil => simp [findByTx] at h
  | cons e es ih =>
    by_cases he : jsEq e.2.veopagTxId tx = true
    · simp [findByTx, he] at h
      subst h
      simp [dbHas]
    · simp [findByTx, he] at h
      unfold dbHas
      rw [List.any_cons]
      have hes := ih h
      unfold dbHas at hes
      rw [hes]
      simp

theorem findByTx_setAll (s : Store) (tx : JVal) (d : String) (r v : Record)
    (h : findByTx s tx = some (d, r)) (hv : jsEq v.veopagTxId tx = true) :
    findByTx (s.map (fun e => if e.1 = d then (d, v) else e)) tx = some (d, v) := by
  induction s with
  | nil => simp [findByTx] at h
  | cons e es ih =>
    by_cases he : jsEq e.2.veopagTxId tx = true
    · simp [findByTx, he] at h
      subst h
      simp [findByTx, hv]
    · simp [findByTx, he] at h
      by_cases hk : e.1 = d
      · simp [findByTx, hk, hv]
      · simp [findByTx, hk, he]
        exact ih h

theorem findByTx_dbSet (s : Store) (tx : JVal) (d : String) (r v : Record)
    (h : findByTx s tx = some (d, r)) (hv : jsEq v.veopagTxId tx = true) :
    findByTx (dbSet s d v) tx = some (d, v) := by
  unfold dbSet
  rw [if_pos (findByTx_has s tx d r h), findByTx_setAll s tx d r v h hv]

theorem statusOk_dbSet (s : Store) (k : String) (v : Record)
    (hs : statusOk s) (hv : v.status = "pending" ∨ v.status = "paid") :
    statusOk (dbSet s k v) := by
  unfold dbSet
  by_cases h : dbHas s k
  · rw [if_pos h]
    intro e he
    rcases List.mem_map.1 he with ⟨a, ha, rfl⟩
    by_cases hk : a.1 = k
    · simpa [hk] using hv
    · simpa [hk] using hs a ha
  · rw [if_neg h]
    intro e he
    rcases List.mem_append.1 he with h1 | h1
    · exact hs e h1
    · simp at h1
      rw [h1]
      exact hv

/-! Truthiness lemmas for the normalizer. -/

theorem jor_null_dichotomy (a b : JVal)
    (h : truthy b = true ∨ b = JVal.jnull) :
    truthy (jor a b) = true ∨ jor a b = JVal.jnull := by
  unfold jor
  cases ht : truthy a
  · simpa using h
  · simp [ht]

theorem truthy_iff_ne_null (v : JVal)
    (h : truthy v = true ∨ v = JVal.jnull) :
    truthy v = true ↔ v ≠ JVal.jnull := by
  rcases h with h | h
  · constructor
    · intro _ hn
      rw [hn] at h
      simp [truthy] at h
    · intro _
      exact h
  · rw [h]
    simp [truthy]

theorem parse_tx_dichotomy (d : JVal) :
    truthy (parseVeopagDepositResponse d).transactionId = true ∨
      (parseVeopagDepositResponse d).transactionId = JVal.jnull := by
  unfold parseVeopagDepositResponse
  dsimp only
  apply jor_null_dichotomy
  apply jor_null_dichotomy
  apply jor_null_dichotomy
  apply jor_null_dichotomy
  apply jor_null_dichotomy
  exact Or.inr rfl

/-! Handler store characterizations: each route either leaves the store
untouched, or performs exactly the mutation its branch prescribes. -/

theorem postDonations_store_cases (env : Env) (req : DonReq)
    (donationId nowUtc clientIp : String) (s : Store) :
    (postDonations env req donationId nowUtc clientIp s).store = s ∨
    ∃ a qr, req.amountNum = some a ∧ createDeposit env = Except.ok qr ∧
      (postDonations env req donationId nowUtc clientIp s).store =
        dbSet s donationId
          ⟨a, "pending", qr.transactionId, qr.qrCodeUrl, qr.copyPaste, req.utm, nowUtc⟩ := by
  unfold postDonations
  cases ha : req.amountNum with
  | none => exact Or.inl rfl
  | some a =>
    dsimp only
    by_cases h0 : a ≤ 0
    · rw [if_pos h0]
      exact Or.inl rfl
    · rw [if_neg h0]
      cases hc : createDeposit env with
      | error e => exact Or.inl rfl
      | ok qr =>
        dsimp only
        rw [swallow_eq]
        exact Or.inr ⟨a, qr, rfl, rfl, rfl⟩

theorem webhookVeopag_store_cases (env : Env) (ev : JVal) (nowUtc clientIp : String)
    (s : Store) :
    (webhookVeopag env ev nowUtc clientIp s).store = s ∨
    ∃ d row, findByTx s (ev.get "transaction_id") = some (d, row) ∧
      (webhookVeopag env ev nowUtc clientIp s).store =
        dbSet s d { row with status := "paid" } := by
  unfold webhookVeopag
  cases hf : findByTx s (ev.get "transaction_id") with
  | none => exact Or.inl rfl
  | some p =>
    obtain ⟨d, row⟩ := p
    dsimp only
    by_cases hg : (jsEq (ev.get "status") (JVal.jstr "COMPLETED") && !(row.status == "paid")) = true
    · rw [if_pos hg, swallow_eq]
      exact Or.inr ⟨d, row, rfl, rfl⟩
    · rw [if_neg hg]
      exact Or.inl rfl

theorem syncDonation_store_cases (env : Env) (donationId nowUtc clientIp : String)
    (s : Store) :
    (syncDonation env donationId nowUtc clientIp s).store = s ∨
    ∃ row, dbGet s donationId = some row ∧
      (syncDonation env donationId nowUtc clientIp s).store =
        dbSet s donationId { row with status := "paid" } := by
  unfold syncDonation
  cases hf : dbGet s donationId with
  | none => exact Or.inl rfl
  | some row =>
    dsimp only
    by_cases ht : (!(truthy row.veopagTxId)) = true
    · rw [if_pos ht]
      exact Or.inl rfl
    · rw [if_neg ht]
      cases hs : getDepositStatus env (jvalToStr row.veopagTxId) with
      | error e => exact Or.inl rfl
      | ok st =>
        dsimp only
        by_cases hg : (jsEq st (JVal.jstr "COMPLETED") && !(row.status == "paid")) = true
        · rw [if_pos hg, swallow_eq]
          exact Or.inr ⟨row, rfl, rfl⟩
        · rw [if_neg hg]
          exact Or.inl rfl


/-! Shared concrete fixtures for witnesses. -/

def wRec : Record :=
  ⟨51 / 2, "pending", JVal.jstr "TX1", JVal.jnull, JVal.jstr "cp", JVal.jnull,
    "2025-01-01 00:00:00"⟩

def wRecPaid : Record :=
  ⟨51 / 2, "paid", JVal.jstr "TX1", JVal.jnull, JVal.jstr "cp", JVal.jnull,
    "2025-01-01 00:00:00"⟩

def wStore : Store := [("d1", wRec)]

def wStorePaid : Store := [("d1", wRecPaid)]

def wEnv : Env :=
  ⟨⟨true, 200, some (JVal.jobj [("token", JVal.jstr "tk")])⟩,
   ⟨true, 200, some (JVal.jobj [("transactionId", JVal.jstr "T9"),
                                ("pixCopyPaste", JVal.jstr "cp9")])⟩,
   fun _ => ⟨true, 200, some (JVal.jobj [("status", JVal.jstr "COMPLETED")])⟩,
   true⟩

/-- C2: the donation status field only ever takes the values pending or paid,
and it is monotonic: whichever operation runs next (create with a fresh id,
webhook delivery, sync, or a status read), a record that is paid stays paid,
and every stored status stays in the pending/paid enumeration. -/
theorem claim_C2_status_monotonic (op : Op) (s : Store) (hfresh : opFresh op s) :
    (statusOk s → statusOk (applyOp op s)) ∧
    (∀ id r, dbGet s id = some r → r.status = "paid" →
      ∃ r2, dbGet (applyOp op s) id = some r2 ∧ r2.status = "paid") := by
  cases op with
  | create env req d now ip =>
    rcases postDonations_store_cases env req d now ip s with h | ⟨a, qr, _, _, h⟩
    · simp only [applyOp]
      rw [h]
      exact ⟨fun hs => hs, fun id r hg hp => ⟨r, hg, hp⟩⟩
    · simp only [applyOp]
      rw [h]
      constructor
      · intro hs
        exact statusOk_dbSet s d _ hs (Or.inl rfl)
      · intro id r hg hp
        have hhas : dbHas s d = false := hfresh
        have hne : id ≠ d := by
          intro he
          rw [he, (dbGet_none_iff s d).2 hhas] at hg
          cases hg
        rw [dbGet_dbSet_ne s d id _ hne]
        exact ⟨r, hg, hp⟩
  | webhook env ev now ip =>
    rcases webhookVeopag_store_cases env ev now ip s with h | ⟨d, row, _, h⟩
    · simp only [applyOp]
      rw [h]
      exact ⟨fun hs => hs, fun id r hg hp => ⟨r, hg, hp⟩⟩
    · simp only [applyOp]
      rw [h]
      constructor
      · intro hs
        exact statusOk_dbSet s d _ hs (Or.inr rfl)
      · intro id r hg hp
        by_cases hid : id = d
        · subst hid
          exact ⟨_, dbGet_dbSet_self s id _, rfl⟩
        · rw [dbGet_dbSet_ne s d id _ hid]
          exact ⟨r, hg, hp⟩
  | sync env d now ip =>
    rcases syncDonation_store_cases env d now ip s with h | ⟨row, _, h⟩
    · simp only [applyOp]
      rw [h]
      exact ⟨fun hs => hs, fun id r hg hp => ⟨r, hg, hp⟩⟩
    · simp only [applyOp]
      rw [h]
      constructor
      · intro hs
        exact statusOk_dbSet s d _ hs (Or.inr rfl)
      · intro id r hg hp
        by_cases hid : id = d
        · subst hid
          exact ⟨_, dbGet_dbSet_self s id _, rfl⟩
        · rw [dbGet_dbSet_ne s d id _ hid]
          exact ⟨r, hg, hp⟩
  | read _ =>
    exact ⟨fun hs => hs, fun id r hg hp => ⟨r, hg, hp⟩⟩

theorem claim_C2_status_monotonic_witness :
    statusOk (applyOp (Op.webhook wEnv (JVal.jobj [("transaction_id", JVal.jstr "TX1"),
        ("status", JVal.jstr "COMPLETED")]) "t1" "ip") wStorePaid) ∧
    ∃ r2, dbGet (applyOp (Op.webhook wEnv (JVal.jobj [("transaction_id", JVal.jstr "TX1"),
        ("status", JVal.jstr "COMPLETED")]) "t1" "ip") wStorePaid) "d1" = some r2 ∧
      r2.status = "paid" := by
  have h := claim_C2_status_monotonic
    (Op.webhook wEnv (JVal.jobj [("transaction_id", JVal.jstr "TX1"),
      ("status", JVal.jstr "COMPLETED")]) "t1" "ip") wStorePaid trivial
  refine ⟨h.1 ?_, h.2 "d1" wRecPaid rfl rfl⟩
  intro e he
  simp [wStorePaid] at he
  rw [he]
  exact Or.inr rfl

/-- C6: a notifier failure is invisible to the HTTP caller: on the creation
path, the webhook path and the sync path, the store, the response and the
attempted notifications are identical whether the UTMify call succeeds or
fails, because every sendUtmifyOrder call is wrapped in its own try/catch. -/
theorem claim_C6_notifier_failure_isolated (env : Env) (b1 b2 : Bool)
    (req : DonReq) (donationId nowUtc clientIp : String) (s : Store)
    (ev : JVal) (syncId : String) :
    postDonations { env with utmifyOk := b1 } req donationId nowUtc clientIp s =
      postDonations { env with utmifyOk := b2 } req donationId nowUtc clientIp s ∧
    webhookVeopag { env with utmifyOk := b1 } ev nowUtc clientIp s =
      webhookVeopag { env with utmifyOk := b2 } ev nowUtc clientIp s ∧
    syncDonation { env with utmifyOk := b1 } syncId nowUtc clientIp s =
      syncDonation { env with utmifyOk := b2 } syncId nowUtc clientIp s := by
  cases b1 <;> cases b2 <;> exact ⟨rfl, rfl, rfl⟩

/-- C8: a webhook delivery whose transaction_id matches no stored donation
answers 404 with the event echoed back, leaves the store untouched and sends
no notification. -/
theorem claim_C8_webhook_unknown_tx (env : Env) (ev : JVal)
    (nowUtc clientIp : String) (s : Store)
    (h : findByTx s (ev.get "transaction_id") = none) :
    webhookVeopag env ev nowUtc clientIp s =
      ⟨s, ⟨404, JVal.jobj [("error", JVal.jstr "donation not found"), ("received", ev)]⟩,
        []⟩ := by
  unfold webhookVeopag
  rw [h]

theorem claim_C8_webhook_unknown_tx_witness :
    findByTx wStore ((JVal.jobj [("transaction_id", JVal.jstr "NOPE")]).get "transaction_id")
      = none ∧
    webhookVeopag wEnv (JVal.jobj [("transaction_id", JVal.jstr "NOPE")]) "t1" "ip" wStore =
      ⟨wStore, ⟨404, JVal.jobj [("error", JVal.jstr "donation not found"),
        ("received", JVal.jobj [("transaction_id", JVal.jstr "NOPE")])]⟩, []⟩ :=
  ⟨rfl, claim_C8_webhook_unknown_tx wEnv (JVal.jobj [("transaction_id", JVal.jstr "NOPE")])
    "t1" "ip" wStore rfl⟩

/-- C10: a webhook delivery that matches a stored donation but whose status
is anything other than COMPLETED is acknowledged with 200 and received:true,
the store is untouched and no notification is sent. -/
theorem claim_C10_webhook_non_completed (env : Env) (ev : JVal)
    (nowUtc clientIp : String) (s : Store) (d : String) (row : Record)
    (hf : findByTx s (ev.get "transaction_id") = some (d, row))
    (hst : jsEq (ev.get "status") (JVal.jstr "COMPLETED") = false) :
    webhookVeopag env ev nowUtc clientIp s =
      ⟨s, ⟨200, JVal.jobj [("received", JVal.jbool true)]⟩, []⟩ := by
  unfold webhookVeopag
  rw [hf]
  dsimp only
  simp only [hst, Bool.false_and]
  rfl

theorem claim_C10_webhook_non_completed_witness :
    findByTx wStore ((JVal.jobj [("transaction_id", JVal.jstr "TX1"),
        ("status", JVal.jstr "PENDING")]).get "transaction_id") = some ("d1", wRec) ∧
    jsEq ((JVal.jobj [("transaction_id", JVal.jstr "TX1"),
        ("status", JVal.jstr "PENDING")]).get "status") (JVal.jstr "COMPLETED") = false ∧
    webhookVeopag wEnv (JVal.jobj [("transaction_id", JVal.jstr "TX1"),
        ("status", JVal.jstr "PENDING")]) "t1" "ip" wStore =
      ⟨wStore, ⟨200, JVal.jobj [("received", JVal.jbool true)]⟩, []⟩ :=
  ⟨rfl, rfl, claim_C10_webhook_non_completed wEnv
    (JVal.jobj [("transaction_id", JVal.jstr "TX1"), ("status", JVal.jstr "PENDING")])
    "t1" "ip" wStore "d1" wRec rfl rfl⟩

/-- C1: the completion paths are idempotent. Starting from a pending record
matched by transaction id, a COMPLETED webhook delivery, or a sync call whose
provider status query answers COMPLETED, flips exactly that record to paid
and attempts exactly one paid notification; a second delivery on either path
leaves the store exactly as it was, attempts no notification, answers 200,
and (on the sync path) reports status paid. -/
theorem claim_C1_completion_idempotent (env : Env) (s : Store) (d : String)
    (row : Record) (tx : JVal) (now1 now2 ip1 ip2 : String)
    (hfind : findByTx s tx = some (d, row))
    (hget : dbGet s d = some row)
    (hpend : row.status = "pending")
    (htx : truthy row.veopagTxId = true)
    (hst : getDepositStatus env (jvalToStr row.veopagTxId) =
      Except.ok (JVal.jstr "COMPLETED")) :
    webhookVeopag env (JVal.jobj [("transaction_id", tx), ("status", JVal.jstr "COMPLETED")])
        now1 ip1 s =
      ⟨dbSet s d { row with status := "paid" },
       ⟨200, JVal.jobj [("received", JVal.jbool true)]⟩,
       [⟨"donation_" ++ d, "paid", row.createdAtUtc, some now1,
         jsRound (row.amount * 100), row.veopagTxId⟩]⟩ ∧
    syncDonation env d now1 ip1 s =
      ⟨dbSet s d { row with status := "paid" },
       ⟨200, JVal.jobj [("donationId", JVal.jstr d), ("status", JVal.jstr "paid")]⟩,
       [⟨"donation_" ++ d, "paid", row.createdAtUtc, some now1,
         jsRound (row.amount * 100), row.veopagTxId⟩]⟩ ∧
    webhookVeopag env (JVal.jobj [("transaction_id", tx), ("status", JVal.jstr "COMPLETED")])
        now2 ip2 (dbSet s d { row with status := "paid" }) =
      ⟨dbSet s d { row with status := "paid" },
       ⟨200, JVal.jobj [("received", JVal.jbool true)]⟩, []⟩ ∧
    syncDonation env d now2 ip2 (dbSet s d { row with status := "paid" }) =
      ⟨dbSet s d { row with status := "paid" },
       ⟨200, JVal.jobj [("donationId", JVal.jstr d), ("status", JVal.jstr "paid")]⟩, []⟩ := by
  have hmatch : jsEq row.veopagTxId tx = true := findByTx_matches s tx d row hfind
  have hpaidtx : jsEq ({ row with status := "paid" } : Record).veopagTxId tx = true := hmatch
  have hfind2 : findByTx (dbSet s d { row with status := "paid" }) tx =
      some (d, { row with status := "paid" }) :=
    findByTx_dbSet s tx d row _ hfind hpaidtx
  have hget2 : dbGet (dbSet s d { row with status := "paid" }) d =
      some ({ row with status := "paid" }) :=
    dbGet_dbSet_self s d _
  have hev1 : (JVal.jobj [("transaction_id", tx), ("status", JVal.jstr "COMPLETED")]).get
      "transaction_id" = tx := rfl
  refine ⟨?_, ?_, ?_, ?_⟩
  · unfold webhookVeopag
    rw [hev1, hfind]
    dsimp only
    have hg : (jsEq ((JVal.jobj [("transaction_id", tx),
        ("status", JVal.jstr "COMPLETED")]).get "status") (JVal.jstr "COMPLETED") &&
        !(row.status == "paid")) = true := by
      rw [hpend]
      rfl
    rw [if_pos hg, swallow_eq]
  · unfold syncDonation
    rw [hget]
    dsimp only
    have hcond : (!(truthy row.veopagTxId)) = false := by
      rw [htx]
      rfl
    rw [if_neg (by simp [hcond])]
    rw [hst]
    dsimp only
    have hg : (jsEq (JVal.jstr "COMPLETED") (JVal.jstr "COMPLETED") &&
        !(row.status == "paid")) = true := by
      rw [hpend]
      rfl
    rw [if_pos hg, swallow_eq]
  · unfold webhookVeopag
    rw [hev1, hfind2]
    dsimp only
    have hg : (jsEq ((JVal.jobj [("transaction_id", tx),
        ("status", JVal.jstr "COMPLETED")]).get "status") (JVal.jstr "COMPLETED") &&
        !(({ row with status := "paid" } : Record).status == "paid")) = false := rfl
    rw [if_neg (by simp [hg])]
  · unfold syncDonation
    rw [hget2]
    dsimp only
    have hcond : (!(truthy row.veopagTxId)) = false := by
      rw [htx]
      rfl
    rw [if_neg (by simp [hcond])]
    rw [hst]
    dsimp only
    have hg : (jsEq (JVal.jstr "COMPLETED") (JVal.jstr "COMPLETED") &&
        !(("paid" : String) == "paid")) = false := rfl
    rw [if_neg (by simp [hg])]

theorem claim_C1_completion_idempotent_witness :
    webhookVeopag wEnv
        (JVal.jobj [("transaction_id", JVal.jstr "TX1"), ("status", JVal.jstr "COMPLETED")])
        "t2" "ip2" (dbSet wStore "d1" { wRec with status := "paid" }) =
      ⟨dbSet wStore "d1" { wRec with status := "paid" },
       ⟨200, JVal.jobj [("received", JVal.jbool true)]⟩, []⟩ ∧
    syncDonation wEnv "d1" "t2" "ip2" (dbSet wStore "d1" { wRec with status := "paid" }) =
      ⟨dbSet wStore "d1" { wRec with status := "paid" },
       ⟨200, JVal.jobj [("donationId", JVal.jstr "d1"), ("status", JVal.jstr "paid")]⟩, []⟩ :=
  ⟨(claim_C1_completion_idempotent wEnv wStore "d1" wRec (JVal.jstr "TX1")
      "t1" "t2" "ip1" "ip2" rfl rfl rfl rfl rfl).2.2.1,
   (claim_C1_completion_idempotent wEnv wStore "d1" wRec (JVal.jstr "TX1")
      "t1" "t2" "ip1" "ip2" rfl rfl rfl rfl rfl).2.2.2⟩

/-- The success condition of the gateway call as the spec states it: the
auth and deposit fetches succeed with JSON bodies, the auth body carries a
token, and normalization yields a non-null transaction id plus at least one
display artifact. -/
def gatewaySucceeds (env : Env) : Prop :=
  env.auth.ok = true ∧
  (∃ ad, env.auth.parsed = some ad ∧ truthy (ad.get "token") = true) ∧
  env.deposit.ok = true ∧
  ∃ dd, env.deposit.parsed = some dd ∧
    (parseVeopagDepositResponse dd).transactionId ≠ JVal.jnull ∧
    (truthy (parseVeopagDepositResponse dd).qrCodeUrl = true ∨
     truthy (parseVeopagDepositResponse dd).copyPaste = true)

theorem createDeposit_ok_iff (env : Env) :
    (∃ qr, createDeposit env = Except.ok qr) ↔ gatewaySucceeds env := by
  obtain ⟨⟨aok, astat, apar⟩, ⟨dok, dstat, dpar⟩, sr, uok⟩ := env
  unfold createDeposit veopagToken gatewaySucceeds
  dsimp only
  cases aok
  · simp
  · cases apar with
    | none => simp
    | some ad =>
      dsimp only
      cases hat : truthy (ad.get "token")
      · simp [hat]
      · simp only [eq_self_iff_true, if_true]
        cases dok
        · simp
        · cases dpar with
          | none => simp
          | some dd =>
            dsimp only
            simp only [eq_self_iff_true, if_true]
            by_cases hcond : (!(truthy (parseVeopagDepositResponse dd).transactionId) ||
                ((!(truthy (parseVeopagDepositResponse dd).qrCodeUrl)) &&
                 (!(truthy (parseVeopagDepositResponse dd).copyPaste)))) = true
            · rw [if_pos hcond]
              constructor
              · rintro ⟨qr, hq⟩
                cases hq
              · rintro ⟨-, ⟨ad2, had2, hat2⟩, -, dd2, hdd2, htx, hart⟩
                cases hdd2
                exfalso
                cases htx2 : truthy (parseVeopagDepositResponse dd).transactionId
                · rcases parse_tx_dichotomy dd with h2 | h2
                  · rw [htx2] at h2
                    cases h2
                  · exact htx h2
                · cases hurl : truthy (parseVeopagDepositResponse dd).qrCodeUrl
                  · cases hcp : truthy (parseVeopagDepositResponse dd).copyPaste
                    · rcases hart with h3 | h3
                      · rw [hurl] at h3
                        cases h3
                      · rw [hcp] at h3
                        cases h3
                    · rw [htx2, hurl, hcp] at hcond
                      cases hcond
                  · rw [htx2, hurl] at hcond
                    cases hcond
            · rw [if_neg hcond]
              constructor
              · rintro -
                refine ⟨trivial, ⟨ad, rfl, hat⟩, trivial, dd, rfl, ?_, ?_⟩
                · cases htx2 : truthy (parseVeopagDepositResponse dd).transactionId
                  · exfalso
                    apply hcond
                    rw [htx2]
                    rfl
                  · exact (truthy_iff_ne_null _ (parse_tx_dichotomy dd)).1 htx2
                · cases hurl : truthy (parseVeopagDepositResponse dd).qrCodeUrl
                  · cases hcp : truthy (parseVeopagDepositResponse dd).copyPaste
                    · exfalso
                      apply hcond
                      rw [hurl, hcp]
                      cases truthy (parseVeopagDepositResponse dd).transactionId <;> rfl
                    · exact Or.inr rfl
                  · exact Or.inl rfl
              · rintro -
                exact ⟨_, rfl⟩

/-- C3: with a valid amount, creation answers 201 exactly when the gateway
call succeeds and normalization yields a non-null transaction id plus at
least one display artifact; on gateway success the record is inserted and
the waiting_payment notification attempted; a normalized response lacking a
transaction id or lacking every display artifact aborts with the
upstream-response error, 502, and an untouched store. -/
theorem claim_C3_creation_iff (env : Env) (req : DonReq)
    (donationId nowUtc clientIp : String) (s : Store) (a : ℚ)
    (ha : req.amountNum = some a) (hpos : 0 < a) :
    (((postDonations env req donationId nowUtc clientIp s).resp.status = 201) ↔
      gatewaySucceeds env) ∧
    (∀ qr, createDeposit env = Except.ok qr →
      postDonations env req donationId nowUtc clientIp s =
        ⟨dbSet s donationId ⟨a, "pending", qr.transactionId, qr.qrCodeUrl, qr.copyPaste,
            req.utm, nowUtc⟩,
         ⟨201, JVal.jobj [("donationId", JVal.jstr donationId),
                          ("transactionId", qr.transactionId),
                          ("qrCodeUrl", qr.qrCodeUrl),
                          ("copyPaste", qr.copyPaste),
                          ("expiresAt", qr.expiresAt)]⟩,
         [⟨"donation_" ++ donationId, "waiting_payment", nowUtc, none,
           jsRound (a * 100), qr.transactionId⟩]⟩) ∧
    (∀ tk dd, veopagToken env = Except.ok tk → env.deposit.ok = true →
      env.deposit.parsed = some dd →
      ((parseVeopagDepositResponse dd).transactionId = JVal.jnull ∨
       (truthy (parseVeopagDepositResponse dd).qrCodeUrl = false ∧
        truthy (parseVeopagDepositResponse dd).copyPaste = false)) →
      createDeposit env = Except.error ApiErr.noEmv ∧
      postDonations env req donationId nowUtc clientIp s =
        ⟨s, ⟨502, errBody ApiErr.noEmv.msg⟩, []⟩) := by
  have hnotle : ¬ a ≤ 0 := not_le.mpr hpos
  refine ⟨?_, ?_, ?_⟩
  · rw [← createDeposit_ok_iff env]
    unfold postDonations
    rw [ha]
    dsimp only
    rw [if_neg hnotle]
    cases hc : createDeposit env with
    | error e => simp
    | ok qr =>
      dsimp only
      rw [swallow_eq]
      exact ⟨fun _ => ⟨qr, rfl⟩, fun _ => rfl⟩
  · intro qr hq
    unfold postDonations
    rw [ha]
    dsimp only
    rw [if_neg hnotle, hq]
    dsimp only
    rw [swallow_eq]
  · intro tk dd htk hdo hdp hbad
    have hcd : createDeposit env = Except.error ApiErr.noEmv := by
      unfold createDeposit
      rw [htk]
      dsimp only
      rw [if_pos hdo, hdp]
      dsimp only
      have hcond : (!(truthy (parseVeopagDepositResponse dd).transactionId) ||
          ((!(truthy (parseVeopagDepositResponse dd).qrCodeUrl)) &&
           (!(truthy (parseVeopagDepositResponse dd).copyPaste)))) = true := by
        rcases hbad with h | ⟨h1, h2⟩
        · have h3 : truthy (parseVeopagDepositResponse dd).transactionId = false := by
            rw [h]
            rfl
          rw [h3]
          rfl
        · rw [h1, h2]
          cases truthy (parseVeopagDepositResponse dd).transactionId <;> rfl
      rw [if_pos hcond]
    refine ⟨hcd, ?_⟩
    unfold postDonations
    rw [ha]
    dsimp only
    rw [if_neg hnotle, hcd]

theorem claim_C3_creation_iff_witness :
    postDonations wEnv ⟨some (51 / 2), JVal.jnull⟩ "d9" "t0" "ip" [] =
      ⟨dbSet [] "d9" ⟨51 / 2, "pending", JVal.jstr "T9", JVal.jnull, JVal.jstr "cp9",
          JVal.jnull, "t0"⟩,
       ⟨201, JVal.jobj [("donationId", JVal.jstr "d9"),
                        ("transactionId", JVal.jstr "T9"),
                        ("qrCodeUrl", JVal.jnull),
                        ("copyPaste", JVal.jstr "cp9"),
                        ("expiresAt", JVal.jnull)]⟩,
       [⟨"donation_" ++ "d9", "waiting_payment", "t0", none,
         jsRound ((51 / 2 : ℚ) * 100), JVal.jstr "T9"⟩]⟩ :=
  (claim_C3_creation_iff wEnv ⟨some (51 / 2), JVal.jnull⟩ "d9" "t0" "ip" [] (51 / 2)
      rfl (by norm_num)).2.1
    ⟨JVal.jstr "T9", JVal.jnull, JVal.jstr "cp9", JVal.jnull⟩ rfl

theorem dbSet_mem (s : Store) (k : String) (v : Record) (x : String × Record)
    (hx : x ∈ dbSet s k v) : x ∈ s ∨ x = (k, v) := by
  unfold dbSet at hx
  by_cases h : dbHas s k
  · rw [if_pos h] at hx
    rcases List.mem_map.1 hx with ⟨y, hy, hxy⟩
    by_cases hk : y.1 = k
    · rw [if_pos hk] at hxy
      exact Or.inr hxy.symm
    · rw [if_neg hk] at hxy
      exact Or.inl (hxy ▸ hy)
  · rw [if_neg h] at hx
    rcases List.mem_append.1 hx with h1 | h1
    · exact Or.inl h1
    · rw [List.mem_singleton] at h1
      exact Or.inr h1

/-- A successful createDeposit always carries a truthy (hence non-null)
provider transaction id, because the normalizer check rejects everything
else. -/
theorem createDeposit_tx_truthy (env : Env) (qr : Charge)
    (h : createDeposit env = Except.ok qr) : truthy qr.transactionId = true := by
  obtain ⟨⟨aok, astat, apar⟩, ⟨dok, dstat, dpar⟩, sr2, uok2⟩ := env
  unfold createDeposit veopagToken at h
  dsimp only at h
  cases aok
  · simp at h
  · simp only [eq_self_iff_true, if_true] at h
    cases apar with
    | none => simp at h
    | some ad =>
      dsimp only at h
      cases hat : truthy (ad.get "token") <;> rw [hat] at h
      · simp at h
      · simp only [eq_self_iff_true, if_true] at h
        cases dok
        · simp at h
        · simp only [eq_self_iff_true, if_true] at h
          cases dpar with
          | none => simp at h
          | some dd =>
            dsimp only at h
            by_cases hcond : (!(truthy (parseVeopagDepositResponse dd).transactionId) ||
                ((!(truthy (parseVeopagDepositResponse dd).qrCodeUrl)) &&
                 (!(truthy (parseVeopagDepositResponse dd).copyPaste)))) = true
            · rw [if_pos hcond] at h
              cases h
            · rw [if_neg hcond] at h
              injection h with h2
              subst h2
              dsimp only
              cases htx2 : truthy (parseVeopagDepositResponse dd).transactionId
              · exfalso
                apply hcond
                rw [htx2]
                rfl
              · rfl

/-- C4: creation is atomic with respect to gateway failure: any createDeposit
error leaves the store exactly as it was, sends nothing, and answers 502;
moreover a record whose provider transaction id is not truthy can never be
persisted by the creation path, whatever the gateway answers. -/
theorem claim_C4_creation_atomic (env : Env) (req : DonReq)
    (donationId nowUtc clientIp : String) (s : Store) (a : ℚ) (e : ApiErr)
    (ha : req.amountNum = some a) (hpos : 0 < a)
    (herr : createDeposit env = Except.error e) :
    postDonations env req donationId nowUtc clientIp s = ⟨s, ⟨502, errBody e.msg⟩, []⟩ ∧
    (∀ env2, (∀ x ∈ s, truthy x.2.veopagTxId = true) →
      ∀ x ∈ (postDonations env2 req donationId nowUtc clientIp s).store,
        truthy x.2.veopagTxId = true) := by
  have hnotle : ¬ a ≤ 0 := not_le.mpr hpos
  refine ⟨?_, ?_⟩
  · unfold postDonations
    rw [ha]
    dsimp only
    rw [if_neg hnotle, herr]
  · intro env2 hall x hx
    rcases postDonations_store_cases env2 req donationId nowUtc clientIp s with
      hcase | ⟨a2, qr, ha2, hc, hcase⟩
    · rw [hcase] at hx
      exact hall x hx
    · rw [hcase] at hx
      rcases dbSet_mem _ _ _ _ hx with h1 | h1
      · exact hall x h1
      · rw [h1]
        exact createDeposit_tx_truthy env2 qr hc

def wEnvFail : Env :=
  ⟨⟨true, 200, some (JVal.jobj [("token", JVal.jstr "tk")])⟩,
   ⟨false, 500, none⟩,
   fun _ => ⟨true, 200, some (JVal.jobj [("status", JVal.jstr "COMPLETED")])⟩,
   true⟩

theorem claim_C4_creation_atomic_witness :
    postDonations wEnvFail ⟨some (51 / 2), JVal.jnull⟩ "d9" "t0" "ip" wStore =
      ⟨wStore, ⟨502, errBody (ApiErr.depositHttp 500).msg⟩, []⟩ :=
  (claim_C4_creation_atomic wEnvFail ⟨some (51 / 2), JVal.jnull⟩ "d9" "t0" "ip" wStore
    (51 / 2) (ApiErr.depositHttp 500) rfl (by norm_num) rfl).1

/-! C5: the status-query candidate-list story. -/

def c5Env : Env :=
  ⟨⟨true, 200, some (JVal.jobj [("token", JVal.jstr "tk")])⟩,
   ⟨true, 200, some (JVal.jobj [("transactionId", JVal.jstr "T1"),
                                ("pixCopyPaste", JVal.jstr "cp")])⟩,
   fun url => if url = VEOPAG_STATUS "T1" then ⟨false, 404, none⟩
     else ⟨true, 200, some (JVal.jobj [("status", JVal.jstr "COMPLETED")])⟩,
   true⟩

/-- C5 counterexample: the provider environment answers 404 on the one
status URL the code ever builds and would answer COMPLETED on any other URL;
the status query surfaces a fatal upstream error instead of treating the 404
as "try the next candidate" and using the next answer. -/
theorem claim_C5_counterexample :
    getDepositStatus c5Env "T1" = Except.error (ApiErr.statusHttp 404) ∧
    (c5Env.statusResp "https://api.veopag.com/api/payments/status2/T1").parsed =
      some (JVal.jobj [("status", JVal.jstr "COMPLETED")]) ∧
    getDepositStatus c5Env "T1" ≠ Except.ok (JVal.jstr "COMPLETED") := by
  refine ⟨rfl, rfl, ?_⟩
  intro h
  have h2 : (Except.error (ApiErr.statusHttp 404) : Except ApiErr JVal) =
      Except.ok (JVal.jstr "COMPLETED") := h
  exact Except.noConfusion h2

/-- C5 amended: the status query consults exactly one URL template,
VEOPAG_STATUS; any non-success response there, a 404 included, is a fatal
upstream status error; a success with a JSON body yields the status
field; the result depends only on the auth oracle and the response at
that single URL, so no other candidate URL is ever consulted; and the sync
route surfaces any status-query error to its caller as 502 with the store
untouched and no notification. -/
theorem claim_C5_amended (env env2 : Env) (tid : String) (tk : JVal)
    (hauth : veopagToken env = Except.ok tk) :
    ((env.statusResp (VEOPAG_STATUS tid)).ok = false →
      getDepositStatus env tid =
        Except.error (ApiErr.statusHttp (env.statusResp (VEOPAG_STATUS tid)).status)) ∧
    (∀ d2, (env.statusResp (VEOPAG_STATUS tid)).ok = true →
      (env.statusResp (VEOPAG_STATUS tid)).parsed = some d2 →
      getDepositStatus env tid = Except.ok (d2.get "status")) ∧
    (env.auth = env2.auth →
      env.statusResp (VEOPAG_STATUS tid) = env2.statusResp (VEOPAG_STATUS tid) →
      getDepositStatus env tid = getDepositStatus env2 tid) ∧
    (∀ (s : Store) (donationId nowUtc clientIp : String) (row : Record) (e : ApiErr),
      dbGet s donationId = some row →
      truthy row.veopagTxId = true →
      getDepositStatus env (jvalToStr row.veopagTxId) = Except.error e →
      syncDonation env donationId nowUtc clientIp s =
        ⟨s, ⟨502, errBody e.msg⟩, []⟩) := by
  refine ⟨?_, ?_, ?_, ?_⟩
  · intro hok
    unfold getDepositStatus
    rw [hauth]
    dsimp only
    rw [hok]
    rfl
  · intro d2 hok hp
    unfold getDepositStatus
    rw [hauth]
    dsimp only
    rw [hok, hp]
    rfl
  · intro h1 h2
    unfold getDepositStatus veopagToken
    rw [h1, h2]
  · intro s donationId nowUtc clientIp row e hget htx herr
    unfold syncDonation
    rw [hget]
    dsimp only
    have hcond : (!(truthy row.veopagTxId)) = false := by
      rw [htx]
      rfl
    rw [if_neg (by simp [hcond]), herr]

def c5Rec : Record :=
  ⟨51 / 2, "pending", JVal.jstr "T1", JVal.jnull, JVal.jstr "cp", JVal.jnull,
    "2025-01-01 00:00:00"⟩

def c5Store : Store := [("d1", c5Rec)]

theorem claim_C5_amended_witness :
    getDepositStatus c5Env "T1" =
      Except.error (ApiErr.statusHttp (c5Env.statusResp (VEOPAG_STATUS "T1")).status) ∧
    syncDonation c5Env "d1" "t1" "ip" c5Store =
      ⟨c5Store, ⟨502, errBody (ApiErr.statusHttp 404).msg⟩, []⟩ :=
  ⟨(claim_C5_amended c5Env c5Env "T1" (JVal.jstr "tk") rfl).1 rfl,
   (claim_C5_amended c5Env c5Env "T1" (JVal.jstr "tk") rfl).2.2.2
     c5Store "d1" "t1" "ip" c5Rec (ApiErr.statusHttp 404) rfl rfl rfl⟩

/-! C7: normalizer shape-equivalence and URL reclassification. -/

/-- The transaction-code grammar of the spec glossary, as a whole-string
property: the string itself is the leftmost-lazy match of the
000201 ... 6304+4-hex pattern, so it starts with the fixed marker and ends
with the checksum trailer. -/
def matchesPixGrammar (s : String) : Bool :=
  pixMatch s == some s

def flatShape (t u c : String) : JVal :=
  JVal.jobj [("transactionId", JVal.jstr t), ("qrCodeUrl", JVal.jstr u),
             ("pixCopyPaste", JVal.jstr c)]

def qrWrapShape (t u c : String) : JVal :=
  JVal.jobj [("qrCodeResponse", flatShape t u c)]

def dataWrapShape (t u c : String) : JVal :=
  JVal.jobj [("data", flatShape t u c)]

/-- C7 counterexample: a display URL that matches the full transaction-code
grammar is found by the raw-JSON scan first, so it is copied into the
copy-paste field but the display URL does NOT become null, contradicting the
claimed reclassification. -/
theorem claim_C7_counterexample :
    matchesPixGrammar "000201X6304ABCD" = true ∧
    parseVeopagDepositResponse (JVal.jobj [("transactionId", JVal.jstr "T"),
        ("qrCodeUrl", JVal.jstr "000201X6304ABCD")]) =
      ⟨JVal.jstr "T", JVal.jstr "000201X6304ABCD", JVal.jstr "000201X6304ABCD",
        JVal.jnull⟩ ∧
    (parseVeopagDepositResponse (JVal.jobj [("transactionId", JVal.jstr "T"),
        ("qrCodeUrl", JVal.jstr "000201X6304ABCD")])).qrCodeUrl ≠ JVal.jnull := by
  refine ⟨rfl, rfl, ?_⟩
  intro h
  exact JVal.noConfusion h

/-- C7 amended: the normalizer extracts the same transaction id, display URL
and copy-paste code from the flat, qrCodeResponse-nested and data-nested
shapes; a code present only inside free text is recovered by scanning the
serialized response; and a display URL is reclassified as the copy-paste
code (with the URL becoming null) only when no code was found by field name
or raw scan and the URL starts with the 000201 marker. -/
theorem claim_C7_amended (t u c : String) (ht : t ≠ "") (hu : u ≠ "") (hc : c ≠ "") :
    (parseVeopagDepositResponse (flatShape t u c) =
        ⟨JVal.jstr t, JVal.jstr u, JVal.jstr c, JVal.jnull⟩ ∧
     parseVeopagDepositResponse (qrWrapShape t u c) =
        ⟨JVal.jstr t, JVal.jstr u, JVal.jstr c, JVal.jnull⟩ ∧
     parseVeopagDepositResponse (dataWrapShape t u c) =
        ⟨JVal.jstr t, JVal.jstr u, JVal.jstr c, JVal.jnull⟩) ∧
    parseVeopagDepositResponse (JVal.jobj [("transactionId", JVal.jstr "T"),
        ("message", JVal.jstr "pay 000201ABC6304FFFF please")]) =
      ⟨JVal.jstr "T", JVal.jnull, JVal.jstr "000201ABC6304FFFF", JVal.jnull⟩ ∧
    parseVeopagDepositResponse (JVal.jobj [("transactionId", JVal.jstr "T"),
        ("qrCodeUrl", JVal.jstr "000201NOEMV")]) =
      ⟨JVal.jstr "T", JVal.jnull, JVal.jstr "000201NOEMV", JVal.jnull⟩ := by
  have ht2 : (t == "") = false := beq_eq_false_iff_ne.mpr ht
  have hu2 : (u == "") = false := beq_eq_false_iff_ne.mpr hu
  have hc2 : (c == "") = false := beq_eq_false_iff_ne.mpr hc
  refine ⟨⟨?_, ?_, ?_⟩, rfl, rfl⟩ <;>
    simp [parseVeopagDepositResponse, flatShape, qrWrapShape, dataWrapShape,
      JVal.get, getField, jor, truthy, jnn, ht2, hu2, hc2]

theorem claim_C7_amended_witness :
    parseVeopagDepositResponse (flatShape "T" "u" "c") =
        ⟨JVal.jstr "T", JVal.jstr "u", JVal.jstr "c", JVal.jnull⟩ ∧
    parseVeopagDepositResponse (qrWrapShape "T" "u" "c") =
        ⟨JVal.jstr "T", JVal.jstr "u", JVal.jstr "c", JVal.jnull⟩ :=
  ⟨((claim_C7_amended "T" "u" "c" (by decide) (by decide) (by decide)).1).1,
   ((claim_C7_amended "T" "u" "c" (by decide) (by decide) (by decide)).1).2.1⟩

/-! C9: provider transaction id uniqueness. -/

def c9Req : DonReq := ⟨some 10, JVal.jnull⟩

def c9Store1 : Store := (postDonations wEnv c9Req "dA" "t0" "ip" []).store

def c9Store2 : Store := (postDonations wEnv c9Req "dB" "t0" "ip" c9Store1).store

/-- C9 counterexample: two successful creations during which the provider
hands out the same transaction id produce a reachable store holding two
records that share a providerTransactionId — nothing in the creation path
enforces uniqueness. -/
theorem claim_C9_counterexample : ¬ txUnique c9Store2 := by
  have h : c9Store2 =
      [("dA", ⟨10, "pending", JVal.jstr "T9", JVal.jnull, JVal.jstr "cp9", JVal.jnull, "t0"⟩),
       ("dB", ⟨10, "pending", JVal.jstr "T9", JVal.jnull, JVal.jstr "cp9", JVal.jnull, "t0"⟩)] :=
    rfl
  intro hu
  unfold txUnique at hu
  rw [h] at hu
  cases hu with
  | cons h1 h2 => exact h1 _ (List.mem_singleton.2 rfl) rfl

/-- C9 amended: creation preserves transaction-id uniqueness provided the
provider-assigned id of the new charge differs from every stored one (the
assumption of the spec that the provider assigns unique ids), and the webhook
lookup returns at most one record, the first whose stored id is strictly
equal to the queried one. -/
theorem claim_C9_amended (env : Env) (req : DonReq)
    (donationId nowUtc clientIp : String) (s : Store)
    (hu : txUnique s) (hfresh : dbHas s donationId = false)
    (hnew : ∀ qr, createDeposit env = Except.ok qr →
      ∀ x ∈ s, x.2.veopagTxId ≠ qr.transactionId) :
    txUnique (postDonations env req donationId nowUtc clientIp s).store ∧
    (∀ tx d r, findByTx s tx = some (d, r) → jsEq r.veopagTxId tx = true) := by
  constructor
  · rcases postDonations_store_cases env req donationId nowUtc clientIp s with
      h | ⟨a, qr, ha, hc, h⟩
    · rw [h]
      exact hu
    · rw [h]
      unfold dbSet
      rw [if_neg (by rw [hfresh]; exact Bool.false_ne_true)]
      unfold txUnique
      rw [List.pairwise_append]
      refine ⟨hu, List.pairwise_singleton _ _, ?_⟩
      intro x hx y hy
      rw [List.mem_singleton] at hy
      subst hy
      exact hnew qr hc x hx
  · intro tx d r hf
    exact findByTx_matches s tx d r hf

theorem claim_C9_amended_witness :
    txUnique (postDonations wEnv c9Req "dA" "t0" "ip" []).store :=
  (claim_C9_amended wEnv c9Req "dA" "t0" "ip" [] List.Pairwise.nil rfl
    (fun qr h x hx => absurd hx (List.not_mem_nil x))).1
